import Mathlib

/-!
Verification of the planet-event shared task tracker.

The repository contains several near-duplicate variants of the same
client.  Each variant is embedded in its own namespace, named after the
version marker in its source file:

* `V19` — second app in `src/types.ts` (counter-based versions,
  `fetchCloudData` / `pushToCloud` / `handleDataChange`);
* `V9`  — first app in `src/App.tsx` (admin-gated, timestamp versions,
  `syncFromCloud` / `pushToCloud` / `applyLocalUpdates` / handlers);
* `V6`  — second app in `src/App.tsx` (`addLog` with `slice(0, 50)`);
* `V13` — third app in `src/App.tsx` (`broadcast` writes local storage
  first);
* `V11` — first app in `src/types.ts` (`updateTask` with its activity
  label);
* `P4`  — `src/unnamed/part_004` (`pullData` / `pushData` /
  `onUpdateTask`).

Machine timestamps (`Date.now()`), random identifiers
(`Math.random().toString(36)`) and network outcomes are inputs of the
embedded functions.
-/

namespace Planet

/-- TaskStatus from src/types.ts: 'Pending' | 'In Progress' | 'Completed' | 'Cancelled'. -/
inductive TaskStatus where
  | Pending
  | InProgress
  | Completed
  | Cancelled
  deriving DecidableEq, Repr

/-- The string each status renders as in the source. -/
def statusText : TaskStatus → String
  | .Pending => "Pending"
  | .InProgress => "In Progress"
  | .Completed => "Completed"
  | .Cancelled => "Cancelled"

/-- Task record from src/types.ts. -/
structure Task where
  id : String
  category : String
  title : String
  status : TaskStatus
  notes : String
  deadline : Option String
  assignee : Option String
  updatedAt : Nat
  deriving DecidableEq, Repr

/-- ActivityLog record from src/types.ts. -/
structure ActivityLog where
  id : String
  taskId : String
  taskTitle : String
  nickname : String
  action : String
  timestamp : Nat
  deriving DecidableEq, Repr

/-- User record from src/types.ts. -/
structure User where
  nickname : String
  isAdmin : Bool
  deriving DecidableEq, Repr

/-- ProjectData record from src/types.ts: the whole synchronized document. -/
structure ProjectData where
  tasks : List Task
  categories : List String
  logs : List ActivityLog
  version : Nat
  lastUpdatedBy : String
  timestamp : Nat
  deriving DecidableEq, Repr

/-- A `Partial<Task>` argument.  An outer `some` means the field is present
in the update object; for `deadline` and `assignee` the inner `Option`
is the `null`-ability of the field itself. -/
structure TaskUpdates where
  ucategory : Option String := none
  utitle : Option String := none
  ustatus : Option TaskStatus := none
  unotes : Option String := none
  udeadline : Option (Option String) := none
  uassignee : Option (Option String) := none
  deriving DecidableEq, Repr

/-- The spread `{ ...t, ...updates, updatedAt: Date.now() }` used by every
task-update handler in the repository. -/
def applyUpdates (t : Task) (u : TaskUpdates) (now : Nat) : Task :=
  { id := t.id
    category := u.ucategory.getD t.category
    title := u.utitle.getD t.title
    status := u.ustatus.getD t.status
    notes := u.unotes.getD t.notes
    deadline := u.udeadline.getD t.deadline
    assignee := u.uassignee.getD t.assignee
    updatedAt := now }

/-- JavaScript `s || fallback` on strings: the empty string is falsy. -/
def jsOrElse (s fallback : String) : String :=
  if s = "" then fallback else s

/-- JavaScript `String.prototype.trim()`: strip leading and trailing
whitespace. -/
def jsTrim (s : String) : String :=
  String.mk (((s.data.dropWhile Char.isWhitespace).reverse.dropWhile Char.isWhitespace).reverse)

/-- JavaScript `String.prototype.toLowerCase()` on the characters the app
compares ("admin"). -/
def jsToLower (s : String) : String :=
  String.mk (s.data.map Char.toLower)

/-- The `task?.title || 'Unknown'` pattern of the update handlers. -/
def titleOrUnknown : Option Task → String
  | some t => jsOrElse t.title "Unknown"
  | none => "Unknown"

/-- The `user?.nickname || fallback` pattern. -/
def nickOr (u : Option User) (fallback : String) : String :=
  match u with
  | some u => jsOrElse u.nickname fallback
  | none => fallback

/-- The `updates.assignee || 'Unassigned'` pattern (`null` and `""` are falsy). -/
def assigneeName : Option String → String
  | some n => jsOrElse n "Unassigned"
  | none => "Unassigned"

/-- What a heartbeat tick decides to do. -/
inductive SyncAction where
  | pull
  | push
  deriving DecidableEq, Repr

/-- Form payload submitted by `TaskFormModal`. -/
structure FormData where
  title : String
  category : String
  deadline : Option String
  notes : String
  assignee : Option String
  deriving DecidableEq, Repr

namespace V19

/-- Sync states of the V19 app: 'online' | 'syncing' | 'local-only' | 'error'. -/
inductive SyncState where
  | online
  | syncing
  | localOnly
  | error
  deriving DecidableEq, Repr

/-- Client state of the V19 app: the React state plus the refs
(`currentV`, `pendingPush`) and the `STORAGE_KEYS.DATA` local-storage
slot. -/
structure ClientState where
  tasks : List Task
  categories : List String
  logs : List ActivityLog
  version : Nat
  pendingPush : Bool
  localData : Option ProjectData
  syncState : SyncState
  lastSync : Nat
  deriving DecidableEq, Repr

/-- Result of the GET issued by `fetchCloudData`: a network/HTTP error, an
empty body (bucket never written), or a body parsing to `ProjectData`. -/
inductive FetchResult where
  | httpError
  | emptyBody
  | body (data : ProjectData)
  deriving DecidableEq, Repr

/-- Body-handling part of `fetchCloudData` (src/types.ts, V19 app): adopt
the cloud document wholesale iff `cloud.version > currentV.current`,
caching the raw body in local storage; otherwise leave all data alone.
On error fall back to 'local-only'.  The empty-body branch defers to a
manual push and leaves the snapshot unchanged. -/
def fetchCloudData (now : Nat) (r : FetchResult) (s : ClientState) : ClientState :=
  match r with
  | .httpError => { s with syncState := .localOnly }
  | .emptyBody => { s with syncState := s.syncState }
  | .body cloud =>
      if cloud.version > s.version then
        { s with
          tasks := cloud.tasks
          categories := cloud.categories
          logs := cloud.logs
          version := cloud.version
          lastSync := now
          localData := some cloud
          syncState := .online }
      else
        { s with syncState := .online }

/-- Payload built by `pushToCloud` (src/types.ts, V19 app):
`customData` fields win when given, `version` is `currentV.current + 1`,
`lastUpdatedBy` is `user?.nickname || 'System'`. -/
def pushPayload (user : Option User) (now : Nat)
    (custom : Option (List Task × List String × List ActivityLog))
    (s : ClientState) : ProjectData :=
  { tasks := (custom.map Prod.fst).getD s.tasks
    categories := (custom.map (fun c => c.2.1)).getD s.categories
    logs := (custom.map (fun c => c.2.2)).getD s.logs
    version := s.version + 1
    lastUpdatedBy := nickOr user "System"
    timestamp := now }

/-- `pushToCloud` (src/types.ts, V19 app).  `syncing`/`online` are the
`isSyncing.current` and `navigator.onLine` guards at entry; `ok` is
whether the PUT returned 2xx within the timeout.  Returns the next
client state and the payload written to the cloud, if any. -/
def pushToCloud (user : Option User) (now : Nat) (syncing online ok : Bool)
    (custom : Option (List Task × List String × List ActivityLog))
    (s : ClientState) : ClientState × Option ProjectData :=
  if syncing || !online then
    ({ s with
        pendingPush := true
        syncState := if !online then .localOnly else s.syncState }, none)
  else
    let payload := pushPayload user now custom s
    if ok then
      ({ s with
          version := s.version + 1
          lastSync := now
          syncState := .online
          pendingPush := false
          localData := some payload }, some payload)
    else
      ({ s with syncState := .localOnly, pendingPush := true }, none)

/-- `handleDataChange` (src/types.ts, V19 app): replace the in-memory
snapshot, set `pendingPush`, then push with the fresh collections as
`customData`.  It performs no local-storage write of its own. -/
def handleDataChange (user : Option User) (now : Nat) (syncing online ok : Bool)
    (t : List Task) (c : List String) (l : List ActivityLog)
    (s : ClientState) : ClientState × Option ProjectData :=
  let s1 := { s with tasks := t, categories := c, logs := l, pendingPush := true }
  pushToCloud user now syncing online ok (some (t, c, l)) s1

/-- Body of the V19 `syncPulse` interval callback: push when a push is
pending, otherwise pull. -/
def heartbeatTick (pending : Bool) : SyncAction :=
  if pending then .push else .pull

end V19

namespace P4

/-- Client state of the part_004 app (`currentVersion`, `hasPendingChanges`,
`STORAGE_KEYS.LOCAL_CACHE`). -/
structure ClientState where
  tasks : List Task
  categories : List String
  logs : List ActivityLog
  version : Nat
  pending : Bool
  localData : Option ProjectData
  lastSync : Nat
  deriving DecidableEq, Repr

/-- Result of the GET issued by `pullData`: 404 (bucket missing), another
failure, or a body parsing to `ProjectData`. -/
inductive FetchResult where
  | notFound
  | failed
  | body (data : ProjectData)
  deriving DecidableEq, Repr

/-- Body-handling part of `pullData` (src/unnamed/part_004): adopt the
remote document wholesale iff `remoteData.version > currentVersion.current`,
caching it in local storage; otherwise leave everything unchanged. -/
def pullData (now : Nat) (r : FetchResult) (s : ClientState) : ClientState :=
  match r with
  | .notFound => s
  | .failed => s
  | .body remote =>
      if remote.version > s.version then
        { s with
          tasks := remote.tasks
          categories := remote.categories
          logs := remote.logs
          version := remote.version
          lastSync := now
          localData := some remote }
      else
        s

/-- `handleApplyChange` (src/unnamed/part_004) without the trailing push:
replace the in-memory snapshot and raise `hasPendingChanges`. -/
def handleApplyChange (t : List Task) (c : List String) (l : List ActivityLog)
    (s : ClientState) : ClientState :=
  { s with tasks := t, categories := c, logs := l, pending := true }

/-- `onUpdateTask` (src/unnamed/part_004).  There is no guard on a missing
id: the map leaves `tasks` value-unchanged, but a log entry with title
'Unknown' is still created and `handleApplyChange` still runs. -/
def onUpdateTask (user : Option User) (logId : String) (now : Nat)
    (id : String) (u : TaskUpdates) (s : ClientState) : ClientState :=
  let nextTasks := s.tasks.map (fun t => if t.id = id then applyUpdates t u now else t)
  let task := s.tasks.find? (fun t => t.id = id)
  let log : ActivityLog :=
    { id := logId
      taskId := id
      taskTitle := titleOrUnknown task
      nickname := nickOr user "Owner"
      action := match u.ustatus with
        | some st => "changed status to " ++ statusText st
        | none => "updated details"
      timestamp := now }
  handleApplyChange nextTasks s.categories (log :: s.logs) s

end P4

namespace V9

/-- Sync states of the V9 app: 'connected' | 'syncing' | 'error' | 'success'. -/
inductive SyncStatus where
  | connected
  | syncing
  | error
  | success
  deriving DecidableEq, Repr

/-- Client state of the V9 app (first app in src/App.tsx): React state plus
`isLockedRef`, `currentVersionRef` and the `LOCAL_BACKUP` storage slot. -/
structure ClientState where
  tasks : List Task
  categories : List String
  logs : List ActivityLog
  syncStatus : SyncStatus
  hasUnsavedChanges : Bool
  version : Nat
  isLocked : Bool
  localBackup : Option ProjectData
  lastSync : Nat
  deriving DecidableEq, Repr

/-- `pushToCloud` (src/App.tsx, V9 app).  Skipped for non-admins or while
locked.  The next version is `Date.now()` (the `now` argument).  The lock
is taken on entry and released in `finally`, so it is free again in the
returned state.  Returns the state and the document written, if any. -/
def pushToCloud (user : User) (now : Nat) (ok : Bool)
    (s : ClientState) : ClientState × Option ProjectData :=
  if !user.isAdmin || s.isLocked then (s, none)
  else
    let payload : ProjectData :=
      { tasks := s.tasks
        categories := s.categories
        logs := s.logs.take 50
        version := now
        lastUpdatedBy := user.nickname
        timestamp := now }
    if ok then
      ({ s with
          version := now
          lastSync := now
          syncStatus := .success
          hasUnsavedChanges := false
          localBackup := some payload
          isLocked := false }, some payload)
    else
      ({ s with syncStatus := .error, isLocked := false }, none)

/-- `applyLocalUpdates` (src/App.tsx, V9 app): admin-gated wholesale
replacement of the three collections, raising `hasUnsavedChanges`. -/
def applyLocalUpdates (user : User) (t : List Task) (c : List String)
    (l : List ActivityLog) (s : ClientState) : ClientState :=
  if !user.isAdmin then s
  else { s with tasks := t, categories := c, logs := l, hasUnsavedChanges := true }

/-- `handleUpdateTask` (src/App.tsx, V9 app).  Admin-gated; the new log is
prepended with NO truncation (`[log, ...logs]`). -/
def handleUpdateTask (user : User) (logId : String) (now : Nat)
    (id : String) (u : TaskUpdates) (s : ClientState) : ClientState :=
  if !user.isAdmin then s
  else
    let nextTasks := s.tasks.map (fun t => if t.id = id then applyUpdates t u now else t)
    let task := s.tasks.find? (fun t => t.id = id)
    let log : ActivityLog :=
      { id := logId
        taskId := id
        taskTitle := titleOrUnknown task
        nickname := user.nickname
        action := match u.ustatus with
          | some st => "set status: " ++ statusText st
          | none => "modified details"
        timestamp := now }
    applyLocalUpdates user nextTasks s.categories (log :: s.logs) s

/-- `handleDeleteTask` (src/App.tsx, V9 app); `confirmed` is the result of
the `confirm(...)` dialog. -/
def handleDeleteTask (user : User) (logId : String) (now : Nat)
    (id : String) (confirmed : Bool) (s : ClientState) : ClientState :=
  if !user.isAdmin then s
  else
    match s.tasks.find? (fun t => t.id = id) with
    | none => s
    | some task =>
        if !confirmed then s
        else
          let nextTasks := s.tasks.filter (fun t => t.id ≠ id)
          let log : ActivityLog :=
            { id := logId
              taskId := id
              taskTitle := task.title
              nickname := user.nickname
              action := "deleted task"
              timestamp := now }
          applyLocalUpdates user nextTasks s.categories (log :: s.logs) s

/-- `handleFormSubmit` (src/App.tsx, V9 app): edit the task being edited,
or append a fresh 'Pending' task; a new category name is appended. -/
def handleFormSubmit (user : User) (editing : Option Task)
    (newId logId : String) (now : Nat) (data : FormData)
    (s : ClientState) : ClientState :=
  if !user.isAdmin then s
  else
    let nextCats :=
      if s.categories.contains data.category then s.categories
      else s.categories ++ [data.category]
    let nextTasks :=
      match editing with
      | some et =>
          s.tasks.map (fun t =>
            if t.id = et.id then
              { t with
                  title := data.title
                  category := data.category
                  deadline := data.deadline
                  notes := data.notes
                  assignee := data.assignee
                  updatedAt := now }
            else t)
      | none =>
          s.tasks ++ [{ id := newId
                        category := data.category
                        title := data.title
                        status := .Pending
                        notes := data.notes
                        deadline := data.deadline
                        assignee := data.assignee
                        updatedAt := now }]
    let log : ActivityLog :=
      { id := logId
        taskId := match editing with | some et => et.id | none => "new"
        taskTitle := data.title
        nickname := user.nickname
        action := if editing.isSome then "updated task entry" else "created new task"
        timestamp := now }
    applyLocalUpdates user nextTasks nextCats (log :: s.logs) s

/-- Body of the V9 background interval (`setInterval(() => syncFromCloud(true), 5000)`):
a tick always pulls, never pushes, whatever the client state. -/
def heartbeatTick (_ : ClientState) : SyncAction :=
  .pull

end V9

/-- Wire document of the timestamp-based variants (V6, V11, V13):
`{ tasks, categories, logs, lastUpdate }`. -/
structure SyncPayload where
  tasks : List Task
  categories : List String
  logs : List ActivityLog
  lastUpdate : Nat
  deriving DecidableEq, Repr

namespace V6

/-- Log-append step of `addLog` (src/App.tsx, V6 app):
`[newLog, ...currentLogs].slice(0, 50)`. -/
def addLogTrim (newLog : ActivityLog) (l : List ActivityLog) : List ActivityLog :=
  List.take 50 (newLog :: l)

/-- Effect on the log of a sequence of log-producing mutations of the V6
app (task create, update, delete, category create all funnel through
`addLog`). -/
def addLogSeq (entries : List ActivityLog) (l : List ActivityLog) : List ActivityLog :=
  entries.foldl (fun acc e => addLogTrim e acc) l

end V6

/-- Effect on the V9 log of a sequence of `handleUpdateTask` calls (each
entry also carries the id of the task it updates). -/
def v9UpdateSeq (user : User) (steps : List (String × Nat × String × TaskUpdates))
    (s : V9.ClientState) : V9.ClientState :=
  steps.foldl (fun st step => V9.handleUpdateTask user step.1 step.2.1 step.2.2.1 step.2.2.2 st) s

namespace V13

/-- Sync states of the V13 app. -/
inductive SyncStatus where
  | synced
  | syncing
  | error
  | checking
  | offline
  deriving DecidableEq, Repr

/-- Outcome of the PUT attempted by `broadcast`: skipped (offline or a sync
already in flight), 2xx, or error/timeout. -/
inductive PushOutcome where
  | skipped
  | success
  | failure
  deriving DecidableEq, Repr

/-- Client state of the V13 app (third app in src/App.tsx): React state
plus `lastUpdateTs`, `backoffCount` and the `STORAGE_KEY_DATA` slot. -/
structure ClientState where
  tasks : List Task
  categories : List String
  logs : List ActivityLog
  localData : Option SyncPayload
  lastUpdateTs : Nat
  syncStatus : SyncStatus
  backoffCount : Nat
  lastSyncTime : Nat
  deriving DecidableEq, Repr

/-- `broadcast` (src/App.tsx, V13 app): the payload is written to local
storage and `lastUpdateTs` is advanced FIRST, unconditionally; only then
is the network attempted. -/
def broadcast (now : Nat) (outcome : PushOutcome) (t : List Task)
    (c : List String) (l : List ActivityLog) (s : ClientState) : ClientState :=
  let payload : SyncPayload := { tasks := t, categories := c, logs := l, lastUpdate := now }
  let s1 := { s with localData := some payload, lastUpdateTs := now }
  match outcome with
  | .skipped => s1
  | .success => { s1 with syncStatus := .synced, lastSyncTime := now, backoffCount := 0 }
  | .failure => { s1 with syncStatus := .error, backoffCount := s1.backoffCount + 1 }

/-- `handleUpdate` (src/App.tsx, V13 app): the mutate entry point — replace
the in-memory snapshot, then `broadcast`. -/
def handleUpdate (now : Nat) (outcome : PushOutcome) (t : List Task)
    (c : List String) (l : List ActivityLog) (s : ClientState) : ClientState :=
  broadcast now outcome t c l { s with tasks := t, categories := c, logs := l }

end V13

namespace V11

/-- Second half of the V11 label choice: `updates.assignee !== undefined`. -/
def fallbackLabel (u : TaskUpdates) : String :=
  match u.uassignee with
  | some a => "assigned task to " ++ assigneeName a
  | none => "updated the task details"

/-- Label choice of `updateTask` (src/types.ts, V11 app): a status value
that differs from the current one wins, else a present `assignee` field,
else the generic text.  Title, notes, deadline and category are never
inspected. -/
def updateLabel (task : Task) (u : TaskUpdates) : String :=
  match u.ustatus with
  | some st =>
      if st ≠ task.status then "changed status to " ++ statusText st
      else fallbackLabel u
  | none => fallbackLabel u

/-- Client state of the V11 app (first app in src/types.ts).  It keeps no
local-storage copy of the data, only `lastUpdateRef`. -/
structure ClientState where
  tasks : List Task
  categories : List String
  logs : List ActivityLog
  lastUpdate : Nat
  deriving DecidableEq, Repr

/-- `updateTask` (src/types.ts, V11 app): a missing id returns before
anything happens; otherwise the task is merged, a log entry is built from
`updateLabel` and `createLog` caps the log at 50. -/
def updateTask (user : Option User) (logId : String) (now : Nat)
    (id : String) (u : TaskUpdates) (s : ClientState) : ClientState :=
  match s.tasks.find? (fun t => t.id = id) with
  | none => s
  | some task =>
      let label := updateLabel task u
      let newTasks := s.tasks.map (fun t => if t.id = id then applyUpdates t u now else t)
      let newLog : ActivityLog :=
        { id := logId
          taskId := id
          taskTitle := task.title
          nickname := nickOr user "Team Member"
          action := label
          timestamp := now }
      { s with tasks := newTasks, logs := List.take 50 (newLog :: s.logs) }

end V11

namespace V6

/-- Label choice of `updateTask` (src/App.tsx, V6 app): same shape as the
V11 one with different wording. -/
def updateLabel (task : Task) (u : TaskUpdates) : String :=
  match u.ustatus with
  | some st =>
      if st ≠ task.status then "status: " ++ statusText st
      else match u.uassignee with
        | some a => "assigned to " ++ assigneeName a
        | none => "updated"
  | none =>
      match u.uassignee with
      | some a => "assigned to " ++ assigneeName a
      | none => "updated"

end V6

/-- Events of the sync-lock discipline shared by the V19 app (`isSyncing`)
and the V9 app (`isLockedRef`): an operation may start (its entry guard)
or finish (its `finally` block). -/
inductive SyncEv where
  | pullStart
  | pullEnd
  | pushStart
  | pushEnd
  deriving DecidableEq, Repr

/-- The busy flag together with how many operations are actually in
flight. -/
structure SyncFlags where
  isSyncing : Bool
  pullsInFlight : Nat
  pushesInFlight : Nat
  deriving DecidableEq, Repr

/-- One scheduler step, faithful to src/types.ts (V19 app):
`fetchCloudData` returns early when the flag is set but never sets it,
and its `finally` clears it; `pushToCloud` sets it on entry and its
`finally` clears it.  An end event with no matching operation in flight
is an invalid schedule (`none`). -/
def syncStep (s : SyncFlags) : SyncEv → Option SyncFlags
  | .pullStart =>
      if s.isSyncing then some s
      else some { s with pullsInFlight := s.pullsInFlight + 1 }
  | .pullEnd =>
      if s.pullsInFlight = 0 then none
      else some { s with pullsInFlight := s.pullsInFlight - 1, isSyncing := false }
  | .pushStart =>
      if s.isSyncing then some s
      else some { s with isSyncing := true, pushesInFlight := s.pushesInFlight + 1 }
  | .pushEnd =>
      if s.pushesInFlight = 0 then none
      else some { s with pushesInFlight := s.pushesInFlight - 1, isSyncing := false }

/-- Run a schedule of lock events. -/
def runSync (s : SyncFlags) : List SyncEv → Option SyncFlags
  | [] => some s
  | e :: es => (syncStep s e).bind (fun s2 => runSync s2 es)

/-- Flag state at boot. -/
def initFlags : SyncFlags := { isSyncing := false, pullsInFlight := 0, pushesInFlight := 0 }

/-- Invariant maintained by push events alone: the flag is held exactly
while a push is in flight, and at most one push is outstanding. -/
def pushInv (s : SyncFlags) : Prop :=
  s.pushesInFlight ≤ 1 ∧ (s.isSyncing = true ↔ s.pushesInFlight = 1) ∧ s.pullsInFlight = 0

namespace NicknameModal

/-- `handleSubmit` (src/components/NicknameModal.tsx): no join when the
trimmed nickname is empty; otherwise join with the trimmed nickname, the
admin flag set iff the trimmed nickname lowercases to "admin" and the
password is exactly "wetlands". -/
def handleSubmit (nickname password : String) : Option (String × Bool) :=
  if jsTrim nickname = "" then none
  else some (jsTrim nickname, jsToLower (jsTrim nickname) == "admin" && password == "wetlands")

end NicknameModal

/-- Sample task used by concrete witnesses and counterexamples. -/
def sampleTask : Task :=
  { id := "t1", category := "PREP", title := "Book venue", status := .Pending,
    notes := "", deadline := none, assignee := none, updatedAt := 1 }

/-- An admin session. -/
def adminUser : User := { nickname := "admin", isAdmin := true }

/-- A guest session. -/
def guestUser : User := { nickname := "guest", isAdmin := false }

/-- V9 state shortly after boot: one task, no logs, lock free. -/
def v9Start : V9.ClientState :=
  { tasks := [sampleTask], categories := ["PREP"], logs := [],
    syncStatus := .connected, hasUnsavedChanges := false, version := 0,
    isLocked := false, localBackup := none, lastSync := 0 }

/-- Document sitting in the V19 local cache before the C4 scenario. -/
def oldDoc : ProjectData :=
  { tasks := [], categories := ["PREP"], logs := [], version := 3,
    lastUpdatedBy := "amy", timestamp := 2 }

/-- V19 state whose local cache holds `oldDoc`. -/
def v19Cached : V19.ClientState :=
  { tasks := [], categories := ["PREP"], logs := [], version := 3,
    pendingPush := false, localData := some oldDoc, syncState := .online,
    lastSync := 2 }

/-- part_004 state with one task and no logs. -/
def p4Start : P4.ClientState :=
  { tasks := [sampleTask], categories := ["PREP"], logs := [], version := 0,
    pending := false, localData := none, lastSync := 0 }

/-- The 51 `handleUpdateTask` steps fed to the V9 app in the C3
counterexample: log id and timestamp `i`, always touching task "t1". -/
def c3Steps : List (String × Nat × String × TaskUpdates) :=
  (List.range 51).map (fun i => (toString i, i, "t1", { ustatus := some .Completed }))

/-- C1: for a successful pull whose body is non-empty and parses, the V19
`fetchCloudData` and the part_004 `pullData` adopt the remote snapshot
wholesale and set the version to exactly `remote.version` when
`remote.version > currentVersion`, and leave the snapshot, the version
and the local cache unchanged when `remote.version ≤ currentVersion`. -/
theorem C1_pull_adopts_iff_strictly_newer
    (now : Nat) (remote : ProjectData) (s : V19.ClientState) (p : P4.ClientState) :
    (remote.version > s.version →
      (V19.fetchCloudData now (.body remote) s).tasks = remote.tasks ∧
      (V19.fetchCloudData now (.body remote) s).categories = remote.categories ∧
      (V19.fetchCloudData now (.body remote) s).logs = remote.logs ∧
      (V19.fetchCloudData now (.body remote) s).version = remote.version) ∧
    (remote.version ≤ s.version →
      (V19.fetchCloudData now (.body remote) s).tasks = s.tasks ∧
      (V19.fetchCloudData now (.body remote) s).categories = s.categories ∧
      (V19.fetchCloudData now (.body remote) s).logs = s.logs ∧
      (V19.fetchCloudData now (.body remote) s).version = s.version ∧
      (V19.fetchCloudData now (.body remote) s).localData = s.localData) ∧
    (remote.version > p.version →
      (P4.pullData now (.body remote) p).tasks = remote.tasks ∧
      (P4.pullData now (.body remote) p).categories = remote.categories ∧
      (P4.pullData now (.body remote) p).logs = remote.logs ∧
      (P4.pullData now (.body remote) p).version = remote.version) ∧
    (remote.version ≤ p.version →
      P4.pullData now (.body remote) p = p) := by
  refine ⟨fun h => ?_, fun h => ?_, fun h => ?_, fun h => ?_⟩
  · simp [V19.fetchCloudData, h]
  · have hn : ¬ remote.version > s.version := Nat.not_lt.mpr h
    simp [V19.fetchCloudData, hn]
  · simp [P4.pullData, h]
  · have hn : ¬ remote.version > p.version := Nat.not_lt.mpr h
    simp [P4.pullData, hn]

/-- Witness for C1 at a concrete state: a remote document at version 5
against a client at version 3 is adopted, and its version becomes 5. -/
theorem C1_pull_adopts_iff_strictly_newer_witness :
    ((V19.fetchCloudData 77 (.body
        { tasks := [], categories := ["PREP"], logs := [], version := 5,
          lastUpdatedBy := "amy", timestamp := 70 })
        { tasks := [], categories := [], logs := [], version := 3,
          pendingPush := false, localData := none,
          syncState := .online, lastSync := 0 }).version = 5) := by
  have h := (C1_pull_adopts_iff_strictly_newer 77
    { tasks := [], categories := ["PREP"], logs := [], version := 5,
      lastUpdatedBy := "amy", timestamp := 70 }
    { tasks := [], categories := [], logs := [], version := 3,
      pendingPush := false, localData := none,
      syncState := .online, lastSync := 0 }
    { tasks := [], categories := [], logs := [], version := 0,
      pending := false, localData := none, lastSync := 0 }).1 (by decide)
  exact h.2.2.2

/-- C2 counterexample: in the V9 app (timestamp versions) two successful
pushes in the same millisecond are reachable from the boot state; the
second succeeds (status 'success', lock free, admin user) but leaves
`currentVersion` equal to, not strictly greater than, its prior value. -/
theorem C2_counterexample :
    (V9.pushToCloud adminUser 100 true v9Start).1.version = 100 ∧
    (V9.pushToCloud adminUser 100 true v9Start).1.syncStatus = .success ∧
    (V9.pushToCloud adminUser 100 true v9Start).1.isLocked = false ∧
    (V9.pushToCloud adminUser 100 true
      (V9.pushToCloud adminUser 100 true v9Start).1).1.version = 100 ∧
    (V9.pushToCloud adminUser 100 true
      (V9.pushToCloud adminUser 100 true v9Start).1).1.syncStatus = .success ∧
    ¬ ((V9.pushToCloud adminUser 100 true v9Start).1.version <
       (V9.pushToCloud adminUser 100 true
         (V9.pushToCloud adminUser 100 true v9Start).1).1.version) := by
  decide

/-- C2 (amended): in the counter-based V19 variant every successful push
sets `currentVersion` to exactly its prior value + 1, hence strictly
greater, from every state; in the timestamp-based V9 variant a successful
push sets `currentVersion` to the push's wall-clock timestamp, which is
strictly greater than the prior value exactly when that timestamp exceeds
it. -/
theorem C2_push_version_monotonicity
    (user : Option User) (u9 : User) (now : Nat)
    (custom : Option (List Task × List String × List ActivityLog))
    (s : V19.ClientState) (s9 : V9.ClientState)
    (hAdmin : u9.isAdmin = true) (hLock : s9.isLocked = false) :
    (V19.pushToCloud user now false true true custom s).1.version = s.version + 1 ∧
    s.version < (V19.pushToCloud user now false true true custom s).1.version ∧
    (V9.pushToCloud u9 now true s9).1.version = now ∧
    (s9.version < now ↔ s9.version < (V9.pushToCloud u9 now true s9).1.version) := by
  refine ⟨?_, ?_, ?_, ?_⟩ <;>
    simp [V19.pushToCloud, V9.pushToCloud, V19.pushPayload, hAdmin, hLock]

/-- Witness for C2 at concrete inputs. -/
theorem C2_push_version_monotonicity_witness :
    (V19.pushToCloud none 9 false true true none v19Cached).1.version = 4 ∧
    v19Cached.version < (V19.pushToCloud none 9 false true true none v19Cached).1.version ∧
    (V9.pushToCloud adminUser 9 true v9Start).1.version = 9 ∧
    (v9Start.version < 9 ↔ v9Start.version < (V9.pushToCloud adminUser 9 true v9Start).1.version) :=
  C2_push_version_monotonicity none adminUser 9 none v19Cached v9Start rfl rfl

/-- C9: `handleSubmit` grants the admin flag iff the trimmed nickname
equals "admin" case-insensitively and the password equals "wetlands";
every other submission with a non-empty trimmed nickname joins with the
admin flag false. -/
theorem C9_admin_login_gate (nickname password : String)
    (h : jsTrim nickname ≠ "") :
    (NicknameModal.handleSubmit nickname password = some (jsTrim nickname, true) ↔
      (jsToLower (jsTrim nickname) = "admin" ∧ password = "wetlands")) ∧
    (¬ (jsToLower (jsTrim nickname) = "admin" ∧ password = "wetlands") →
      NicknameModal.handleSubmit nickname password = some (jsTrim nickname, false)) := by
  have hsub : NicknameModal.handleSubmit nickname password =
      some (jsTrim nickname,
        jsToLower (jsTrim nickname) == "admin" && password == "wetlands") := by
    simp [NicknameModal.handleSubmit, if_neg h]
  constructor
  · rw [hsub]
    simp [Bool.and_eq_true, beq_iff_eq]
  · intro hc
    rw [hsub]
    have hb : (jsToLower (jsTrim nickname) == "admin" && password == "wetlands") = false := by
      rcases not_and_or.mp hc with hn | hn <;> simp [hn]
    rw [hb]

/-- Witness for C9: nickname " Admin " with the shared password joins as
admin. -/
theorem C9_admin_login_gate_witness :
    NicknameModal.handleSubmit " Admin " "wetlands" = some (jsTrim " Admin ", true) :=
  (C9_admin_login_gate " Admin " "wetlands" (by decide)).1.mpr (by decide)

/-- Taking `n` of a list whose tail part is already capped at `n` sees the
same elements as taking `n` of the uncapped list. -/
theorem take_append_take {α : Type} (n : Nat) (a b : List α) :
    List.take n (a ++ List.take n b) = List.take n (a ++ b) := by
  rw [List.take_append_eq_append_take, List.take_append_eq_append_take, List.take_take]
  congr 1
  rw [Nat.min_eq_left (Nat.sub_le n a.length)]

/-- The V6 log after a sequence of `addLog` insertions is the 50 newest
entries of the newest-first insertion history prepended to the initial
log. -/
theorem addLogSeq_eq (es : List ActivityLog) (l : List ActivityLog)
    (h : l.length ≤ 50) :
    V6.addLogSeq es l = List.take 50 (es.reverse ++ l) := by
  induction es generalizing l with
  | nil => simp [V6.addLogSeq, List.take_of_length_le h]
  | cons e es ih =>
      have h2 : (V6.addLogTrim e l).length ≤ 50 := by
        simp [V6.addLogTrim, List.length_take]
      calc V6.addLogSeq (e :: es) l
          = V6.addLogSeq es (V6.addLogTrim e l) := rfl
        _ = List.take 50 (es.reverse ++ V6.addLogTrim e l) := ih _ h2
        _ = List.take 50 (es.reverse ++ List.take 50 (e :: l)) := rfl
        _ = List.take 50 (es.reverse ++ (e :: l)) := take_append_take 50 _ _
        _ = List.take 50 ((e :: es).reverse ++ l) := by
              rw [List.reverse_cons, List.append_assoc]
              simp

/-- One admin `handleUpdateTask` of the V9 app grows the in-memory log by
exactly one entry: there is no truncation on this path. -/
theorem handleUpdateTask_logs_length (user : User) (h : user.isAdmin = true)
    (logId : String) (now : Nat) (id : String) (u : TaskUpdates)
    (s : V9.ClientState) :
    (V9.handleUpdateTask user logId now id u s).logs.length = s.logs.length + 1 := by
  simp [V9.handleUpdateTask, V9.applyLocalUpdates, h]

/-- A sequence of admin `handleUpdateTask` calls grows the V9 log without
bound. -/
theorem v9UpdateSeq_logs_length (user : User) (h : user.isAdmin = true)
    (steps : List (String × Nat × String × TaskUpdates)) (s : V9.ClientState) :
    (v9UpdateSeq user steps s).logs.length = s.logs.length + steps.length := by
  induction steps generalizing s with
  | nil => rfl
  | cons p ps ih =>
      calc (v9UpdateSeq user (p :: ps) s).logs.length
          = (v9UpdateSeq user ps
              (V9.handleUpdateTask user p.1 p.2.1 p.2.2.1 p.2.2.2 s)).logs.length := rfl
        _ = (V9.handleUpdateTask user p.1 p.2.1 p.2.2.1 p.2.2.2 s).logs.length
              + ps.length := ih _
        _ = s.logs.length + 1 + ps.length := by
              rw [handleUpdateTask_logs_length user h]
        _ = s.logs.length + (p :: ps).length := by simp; omega

/-- C3 counterexample: 51 admin task updates of the V9 app, starting from
the boot state with an empty log, leave 51 entries in the in-memory log —
the cited `handleUpdateTask` path never truncates. -/
theorem C3_counterexample :
    ¬ ((v9UpdateSeq adminUser c3Steps v9Start).logs.length ≤ 50) := by
  rw [v9UpdateSeq_logs_length adminUser rfl c3Steps v9Start]
  have h1 : c3Steps.length = 51 := by simp [c3Steps]
  have h2 : v9Start.logs.length = 0 := rfl
  rw [h1, h2]
  decide

/-- C3 (amended): in the V6 app every log-producing mutation funnels
through `addLog`, whose `[newLog, ...logs].slice(0, 50)` keeps the log at
the at most 50 most recent entries in newest-first order; in the V9 app
(`handleUpdateTask` / `applyLocalUpdates`) the in-memory log is never
truncated — each update grows it by exactly one — and only the pushed
payload is capped at 50. -/
theorem C3_log_cap (es : List ActivityLog) (l : List ActivityLog)
    (hl : l.length ≤ 50) (user : User) (hAdmin : user.isAdmin = true)
    (steps : List (String × Nat × String × TaskUpdates)) (s : V9.ClientState)
    (now : Nat) (ok : Bool) :
    V6.addLogSeq es l = List.take 50 (es.reverse ++ l) ∧
    (V6.addLogSeq es l).length ≤ 50 ∧
    (v9UpdateSeq user steps s).logs.length = s.logs.length + steps.length ∧
    (∀ d, (V9.pushToCloud user now ok s).2 = some d → d.logs.length ≤ 50) := by
  refine ⟨addLogSeq_eq es l hl, ?_, v9UpdateSeq_logs_length user hAdmin steps s, ?_⟩
  · rw [addLogSeq_eq es l hl]
    simp [List.length_take]
  · intro d hd
    by_cases hL : s.isLocked
    · simp [V9.pushToCloud, hAdmin, hL] at hd
    · cases ok with
      | false => simp [V9.pushToCloud, hAdmin, hL] at hd
      | true =>
          simp [V9.pushToCloud, hAdmin, hL] at hd
          rw [← hd]
          simp [List.length_take]

/-- Witness for C3 at concrete inputs: one insertion into an empty V6 log,
one admin update step on the V9 boot state. -/
theorem C3_log_cap_witness :
    V6.addLogSeq [] [] = List.take 50 (List.reverse [] ++ []) ∧
    (V6.addLogSeq [] ([] : List ActivityLog)).length ≤ 50 ∧
    (v9UpdateSeq adminUser [("l1", 4, "t1", { ustatus := some .Completed })] v9Start).logs.length
      = v9Start.logs.length + 1 ∧
    (∀ d, (V9.pushToCloud adminUser 4 true v9Start).2 = some d → d.logs.length ≤ 50) := by
  have h := C3_log_cap [] [] (by decide) adminUser rfl
    [("l1", 4, "t1", { ustatus := some .Completed })] v9Start 4 true
  exact h

/-- C4 counterexample: in the V19 app the mutate entry point
`handleDataChange` writes nothing to local storage itself; when the
triggered push fails, the in-memory snapshot holds the new task but the
local cache still holds the old version-3 document — the new snapshot was
never written to the Local Store. -/
theorem C4_counterexample :
    ((V19.handleDataChange (some adminUser) 9 false true false
        [sampleTask] ["PREP"] [] v19Cached).1.tasks = [sampleTask] ∧
     (V19.handleDataChange (some adminUser) 9 false true false
        [sampleTask] ["PREP"] [] v19Cached).1.localData = some oldDoc ∧
     oldDoc.tasks ≠ [sampleTask]) := by
  decide

/-- C4 (amended): in the V13 app `broadcast` saves the payload to local
storage and advances `lastUpdateTs` before the network attempt, so after
any mutate call the local cache holds the new snapshot and the in-memory
state reflects the mutation whatever the push outcome (offline/skip,
success or failure); in the V19 app the in-memory state reflects the
mutation for every outcome, but local storage is rewritten only by a
successful push and is untouched when the push fails. -/
theorem C4_mutate_local_first
    (now : Nat) (outcome : V13.PushOutcome) (t : List Task) (c : List String)
    (l : List ActivityLog) (s13 : V13.ClientState)
    (user : Option User) (ok : Bool) (s : V19.ClientState) :
    (V13.handleUpdate now outcome t c l s13).localData =
        some { tasks := t, categories := c, logs := l, lastUpdate := now } ∧
    (V13.handleUpdate now outcome t c l s13).tasks = t ∧
    (V13.handleUpdate now outcome t c l s13).categories = c ∧
    (V13.handleUpdate now outcome t c l s13).logs = l ∧
    (V19.handleDataChange user now false true ok t c l s).1.tasks = t ∧
    (V19.handleDataChange user now false true ok t c l s).1.categories = c ∧
    (V19.handleDataChange user now false true ok t c l s).1.logs = l ∧
    (V19.handleDataChange user now false true false t c l s).1.localData = s.localData ∧
    (V19.handleDataChange user now false true true t c l s).1.localData =
        some { tasks := t, categories := c, logs := l, version := s.version + 1,
               lastUpdatedBy := nickOr user "System", timestamp := now } := by
  cases outcome <;> cases ok <;>
    simp [V13.handleUpdate, V13.broadcast, V19.handleDataChange, V19.pushToCloud,
      V19.pushPayload]

/-- C5 counterexample: from boot, a pull starts (its guard sees a free flag
but never takes it) and a push then also starts — two sync operations are
outstanding at once, so the flag does not give mutual exclusion of pulls
and pushes. -/
theorem C5_counterexample :
    runSync initFlags [SyncEv.pullStart, SyncEv.pushStart] =
      some { isSyncing := true, pullsInFlight := 1, pushesInFlight := 1 } ∧
    ¬ (1 + 1 ≤ 1) := by
  decide

/-- The push lock invariant is preserved by push events. -/
theorem pushInv_step (s s' : SyncFlags) (e : SyncEv)
    (he : e = SyncEv.pushStart ∨ e = SyncEv.pushEnd)
    (hinv : pushInv s) (hstep : syncStep s e = some s') : pushInv s' := by
  obtain ⟨h1, h2, h3⟩ := hinv
  rcases he with rfl | rfl
  · by_cases hs : s.isSyncing
    · simp only [syncStep, if_pos hs, Option.some.injEq] at hstep
      exact hstep ▸ ⟨h1, h2, h3⟩
    · simp only [syncStep, if_neg hs, Option.some.injEq] at hstep
      have h0 : s.pushesInFlight = 0 := by
        have hne : s.pushesInFlight ≠ 1 := fun hq => hs (h2.mpr hq)
        omega
      rw [← hstep]
      refine ⟨by simp [h0], by simp [h0], by simp [h3]⟩
  · by_cases hz : s.pushesInFlight = 0
    · simp only [syncStep, if_pos hz] at hstep
      exact Option.noConfusion hstep
    · simp only [syncStep, if_neg hz, Option.some.injEq] at hstep
      have h1' : s.pushesInFlight = 1 := by omega
      rw [← hstep]
      refine ⟨by simp [h1'], by simp [h1'], by simp [h3]⟩

/-- Along a schedule of push events the push lock invariant holds at every
reachable state. -/
theorem runSync_pushInv (es : List SyncEv)
    (honly : ∀ e ∈ es, e = SyncEv.pushStart ∨ e = SyncEv.pushEnd)
    (s s' : SyncFlags) (hinv : pushInv s) (hrun : runSync s es = some s') :
    pushInv s' := by
  induction es generalizing s with
  | nil =>
      simp only [runSync, Option.some.injEq] at hrun
      exact hrun ▸ hinv
  | cons e es ih =>
      simp only [runSync] at hrun
      cases hstep : syncStep s e with
      | none => rw [hstep] at hrun; simp at hrun
      | some s2 =>
          rw [hstep] at hrun
          exact ih (fun x hx => honly x (List.mem_cons_of_mem e hx)) s2
            (pushInv_step s s2 e (honly e (List.mem_cons_self e es)) hinv hstep) hrun

/-- C5 (amended): `pushToCloud` takes the busy flag on entry and its
`finally` releases it even on exception or timeout, so along schedules
consisting only of push events at most one sync operation is ever
outstanding and the flag is held exactly while one is.  The full claim
fails because `fetchCloudData` (like the V9 `syncFromCloud`) only checks
the flag and never takes it: a pull may overlap another pull or a push,
and a finishing pull releases a flag taken by a still-running push. -/
theorem C5_push_lock_mutual_exclusion (es : List SyncEv)
    (honly : ∀ e ∈ es, e = SyncEv.pushStart ∨ e = SyncEv.pushEnd)
    (s' : SyncFlags) (hrun : runSync initFlags es = some s') :
    s'.pullsInFlight + s'.pushesInFlight ≤ 1 ∧
    (s'.isSyncing = true ↔ s'.pushesInFlight = 1) := by
  have h := runSync_pushInv es honly initFlags s' (by refine ⟨?_, ?_, ?_⟩ <;> simp [initFlags]) hrun
  obtain ⟨h1, h2, h3⟩ := h
  exact ⟨by omega, h2⟩

/-- Witness for C5: the schedule of a single started push. -/
theorem C5_push_lock_mutual_exclusion_witness :
    ({ isSyncing := true, pullsInFlight := 0, pushesInFlight := 1 } : SyncFlags).pullsInFlight +
      ({ isSyncing := true, pullsInFlight := 0, pushesInFlight := 1 } : SyncFlags).pushesInFlight ≤ 1 ∧
    (({ isSyncing := true, pullsInFlight := 0, pushesInFlight := 1 } : SyncFlags).isSyncing = true ↔
      ({ isSyncing := true, pullsInFlight := 0, pushesInFlight := 1 } : SyncFlags).pushesInFlight = 1) :=
  C5_push_lock_mutual_exclusion [SyncEv.pushStart] (by decide) _ rfl

/-- C6 counterexample: in the V9 app an admin update raises
`hasUnsavedChanges` and a failed push keeps it raised with status
'error'; but a V9 heartbeat tick always pulls (`syncFromCloud` only), so
no later heartbeat tick re-attempts the push. -/
theorem C6_counterexample :
    (V9.pushToCloud adminUser 5 false
      (V9.handleUpdateTask adminUser "l1" 4 "t1" { ustatus := some .Completed }
        v9Start)).1.hasUnsavedChanges = true ∧
    (V9.pushToCloud adminUser 5 false
      (V9.handleUpdateTask adminUser "l1" 4 "t1" { ustatus := some .Completed }
        v9Start)).1.syncStatus = .error ∧
    V9.heartbeatTick (V9.pushToCloud adminUser 5 false
      (V9.handleUpdateTask adminUser "l1" 4 "t1" { ustatus := some .Completed }
        v9Start)).1 = SyncAction.pull ∧
    SyncAction.pull ≠ SyncAction.push := by
  decide

/-- C6 (amended): a failed push leaves the version, the snapshot and the
local cache unchanged, keeps the unsynced-changes flag raised, writes
nothing to the remote document, and reports the failure only through the
status ('error' in V9, 'local-only' in V19) — the embedded operation is a
total function, matching the source `catch` that swallows the exception;
the V19 heartbeat then re-attempts the push whenever `pendingPush` is
set, while the V9 heartbeat only ever pulls, so there a failed push is
retried only by the manual save button. -/
theorem C6_push_failure_handling (u9 : User) (now : Nat) (s9 : V9.ClientState)
    (hAdmin : u9.isAdmin = true) (hLock : s9.isLocked = false)
    (user : Option User) (custom : Option (List Task × List String × List ActivityLog))
    (s : V19.ClientState) :
    (V9.pushToCloud u9 now false s9).1.syncStatus = .error ∧
    (V9.pushToCloud u9 now false s9).1.hasUnsavedChanges = s9.hasUnsavedChanges ∧
    (V9.pushToCloud u9 now false s9).1.version = s9.version ∧
    (V9.pushToCloud u9 now false s9).1.tasks = s9.tasks ∧
    (V9.pushToCloud u9 now false s9).2 = none ∧
    (V19.pushToCloud user now false true false custom s).1.syncState = .localOnly ∧
    (V19.pushToCloud user now false true false custom s).1.pendingPush = true ∧
    (V19.pushToCloud user now false true false custom s).1.version = s.version ∧
    (V19.pushToCloud user now false true false custom s).1.localData = s.localData ∧
    V19.heartbeatTick true = SyncAction.push ∧
    V9.heartbeatTick (V9.pushToCloud u9 now false s9).1 = SyncAction.pull := by
  refine ⟨?_, ?_, ?_, ?_, ?_, ?_, ?_, ?_, ?_, rfl, rfl⟩ <;>
    simp [V9.pushToCloud, V19.pushToCloud, hAdmin, hLock]

/-- Witness for C6 at concrete inputs. -/
theorem C6_push_failure_handling_witness :
    (V9.pushToCloud adminUser 5 false v9Start).1.syncStatus = .error ∧
    (V9.pushToCloud adminUser 5 false v9Start).1.hasUnsavedChanges = v9Start.hasUnsavedChanges ∧
    (V9.pushToCloud adminUser 5 false v9Start).1.version = v9Start.version ∧
    (V9.pushToCloud adminUser 5 false v9Start).1.tasks = v9Start.tasks ∧
    (V9.pushToCloud adminUser 5 false v9Start).2 = none ∧
    (V19.pushToCloud none 5 false true false none v19Cached).1.syncState = .localOnly ∧
    (V19.pushToCloud none 5 false true false none v19Cached).1.pendingPush = true ∧
    (V19.pushToCloud none 5 false true false none v19Cached).1.version = v19Cached.version ∧
    (V19.pushToCloud none 5 false true false none v19Cached).1.localData = v19Cached.localData ∧
    V19.heartbeatTick true = SyncAction.push ∧
    V9.heartbeatTick (V9.pushToCloud adminUser 5 false v9Start).1 = SyncAction.pull :=
  C6_push_failure_handling adminUser 5 v9Start rfl rfl none none v19Cached

/-- Mapping a guarded task update over a list with no matching id is the
identity. -/
theorem map_update_no_match (l : List Task) (id : String) (f : Task → Task)
    (h : ∀ t ∈ l, t.id ≠ id) :
    l.map (fun t => if t.id = id then f t else t) = l := by
  induction l with
  | nil => rfl
  | cons a as ih =>
      simp only [List.map_cons]
      rw [if_neg (h a (List.mem_cons_self a as)),
        ih (fun t ht => h t (List.mem_cons_of_mem a ht))]

/-- C7 counterexample: in part_004, updating an id that matches no task
leaves the task collection value-unchanged, but it is not a detectable
no-op: a log entry titled 'Unknown' is appended and `hasPendingChanges`
is raised (scheduling a push). -/
theorem C7_counterexample :
    ((P4.onUpdateTask none "l9" 9 "missing-id" { ustatus := some .Completed } p4Start).tasks
        = p4Start.tasks ∧
     (P4.onUpdateTask none "l9" 9 "missing-id" { ustatus := some .Completed } p4Start).logs.length
        = 1 ∧
     p4Start.logs.length = 0 ∧
     (P4.onUpdateTask none "l9" 9 "missing-id" { ustatus := some .Completed } p4Start).pending
        = true ∧
     p4Start.pending = false ∧
     ((P4.onUpdateTask none "l9" 9 "missing-id" { ustatus := some .Completed } p4Start).logs.map
        ActivityLog.taskTitle) = ["Unknown"]) := by
  decide

/-- C7 (amended): with an id matching no task, the V11 `updateTask`
returns the whole state unchanged — no log entry, no state change, and no
exception since the embedding is a total function; the part_004
`onUpdateTask` also leaves the task collection unchanged in value and
throws nothing, but it is not a no-op: a log entry titled 'Unknown' is
appended and `hasPendingChanges` is raised. -/
theorem C7_missing_id_update (ou : Option User) (logId : String) (now : Nat)
    (id : String) (u : TaskUpdates) (s : V11.ClientState) (p : P4.ClientState)
    (h11 : ∀ t ∈ s.tasks, t.id ≠ id) (hp : ∀ t ∈ p.tasks, t.id ≠ id) :
    V11.updateTask ou logId now id u s = s ∧
    (P4.onUpdateTask ou logId now id u p).tasks = p.tasks ∧
    (P4.onUpdateTask ou logId now id u p).logs.length = p.logs.length + 1 ∧
    (P4.onUpdateTask ou logId now id u p).pending = true := by
  have hfind : s.tasks.find? (fun t => t.id = id) = none := by
    rw [List.find?_eq_none]
    intro x hx
    simp [h11 x hx]
  refine ⟨?_, ?_, ?_, rfl⟩
  · simp [V11.updateTask, hfind]
  · simp [P4.onUpdateTask, P4.handleApplyChange,
      map_update_no_match p.tasks id _ hp]
  · simp [P4.onUpdateTask, P4.handleApplyChange]

/-- Witness for C7: the boot states hold only task "t1", so id "zzz"
matches nothing. -/
theorem C7_missing_id_update_witness :
    V11.updateTask none "l7" 7 "zzz" { ustatus := some .Completed }
      { tasks := [sampleTask], categories := ["PREP"], logs := [], lastUpdate := 0 } =
      { tasks := [sampleTask], categories := ["PREP"], logs := [], lastUpdate := 0 } ∧
    (P4.onUpdateTask none "l7" 7 "zzz" { ustatus := some .Completed } p4Start).tasks
        = p4Start.tasks ∧
    (P4.onUpdateTask none "l7" 7 "zzz" { ustatus := some .Completed } p4Start).logs.length
        = p4Start.logs.length + 1 ∧
    (P4.onUpdateTask none "l7" 7 "zzz" { ustatus := some .Completed } p4Start).pending = true :=
  C7_missing_id_update none "l7" 7 "zzz" { ustatus := some .Completed }
    { tasks := [sampleTask], categories := ["PREP"], logs := [], lastUpdate := 0 }
    p4Start (by decide) (by decide)

/-- C8 counterexample: renaming a task together with reassigning it yields
the assignee description, and renaming alone yields the very same generic
description as an empty update — the label never reflects a rename, so
the claimed priority order status > rename > assignee > note > deadline >
category does not hold (rename does not outrank assignee, and rename,
note, deadline and category produce no description at all). -/
theorem C8_counterexample :
    V11.updateLabel sampleTask
      { utitle := some "Book venue and caterer", uassignee := some (some "Bob") } =
      "assigned task to Bob" ∧
    V11.updateLabel sampleTask { utitle := some "Book venue and caterer" } =
      "updated the task details" ∧
    V11.updateLabel sampleTask {} = "updated the task details" := by
  decide

/-- C8 (amended): the V11 and V6 label choice uses the priority order
status (present and different from the current one) > assignee (present
in the update, changed or not) > generic text; title, notes, deadline and
category never influence the label. -/
theorem C8_update_label_priority (task : Task) (u : TaskUpdates) :
    (∀ st, u.ustatus = some st → st ≠ task.status →
        V11.updateLabel task u = "changed status to " ++ statusText st ∧
        V6.updateLabel task u = "status: " ++ statusText st) ∧
    ((∀ st, u.ustatus = some st → st = task.status) →
      ∀ a, u.uassignee = some a →
        V11.updateLabel task u = "assigned task to " ++ assigneeName a ∧
        V6.updateLabel task u = "assigned to " ++ assigneeName a) ∧
    ((∀ st, u.ustatus = some st → st = task.status) → u.uassignee = none →
        V11.updateLabel task u = "updated the task details" ∧
        V6.updateLabel task u = "updated") ∧
    (∀ x y z w,
        V11.updateLabel task
          { u with utitle := x, unotes := y, udeadline := z, ucategory := w } =
          V11.updateLabel task u ∧
        V6.updateLabel task
          { u with utitle := x, unotes := y, udeadline := z, ucategory := w } =
          V6.updateLabel task u) := by
  refine ⟨?_, ?_, ?_, ?_⟩
  · intro st hst hne
    constructor <;> simp [V11.updateLabel, V6.updateLabel, hst, hne]
  · intro hsame a ha
    cases hu : u.ustatus with
    | none =>
        constructor <;>
          simp [V11.updateLabel, V6.updateLabel, V11.fallbackLabel, hu, ha]
    | some st =>
        have heq : st = task.status := hsame st hu
        constructor <;>
          simp [V11.updateLabel, V6.updateLabel, V11.fallbackLabel, hu, ha, heq]
  · intro hsame hnone
    cases hu : u.ustatus with
    | none =>
        constructor <;>
          simp [V11.updateLabel, V6.updateLabel, V11.fallbackLabel, hu, hnone]
    | some st =>
        have heq : st = task.status := hsame st hu
        constructor <;>
          simp [V11.updateLabel, V6.updateLabel, V11.fallbackLabel, hu, hnone, heq]
  · intro x y z w
    cases u
    constructor <;> rfl

/-- Witness for C8: a status change to 'Completed' beats a simultaneous
reassignment. -/
theorem C8_update_label_priority_witness :
    V11.updateLabel sampleTask
      { ustatus := some .Completed, uassignee := some (some "Bob") } =
      "changed status to " ++ statusText .Completed ∧
    V6.updateLabel sampleTask
      { ustatus := some .Completed, uassignee := some (some "Bob") } =
      "status: " ++ statusText .Completed :=
  (C8_update_label_priority sampleTask
    { ustatus := some .Completed, uassignee := some (some "Bob") }).1
    .Completed rfl (by decide)

/-- C10: in the admin-gated V9 app, every mutation entry point called by a
session whose admin flag is false returns the state unchanged, and a push
writes nothing to the remote document. -/
theorem C10_non_admin_read_only
    (user : User) (h : user.isAdmin = false)
    (t : List Task) (c : List String) (l : List ActivityLog)
    (logId newId : String) (now : Nat) (id : String) (u : TaskUpdates)
    (confirmed : Bool) (editing : Option Task) (data : FormData)
    (ok : Bool) (s : V9.ClientState) :
    V9.applyLocalUpdates user t c l s = s ∧
    V9.handleUpdateTask user logId now id u s = s ∧
    V9.handleDeleteTask user logId now id confirmed s = s ∧
    V9.handleFormSubmit user editing newId logId now data s = s ∧
    V9.pushToCloud user now ok s = (s, none) := by
  refine ⟨?_, ?_, ?_, ?_, ?_⟩ <;>
    simp [V9.applyLocalUpdates, V9.handleUpdateTask, V9.handleDeleteTask,
      V9.handleFormSubmit, V9.pushToCloud, h]

/-- Witness for C10: a concrete guest session mutates nothing. -/
theorem C10_non_admin_read_only_witness :
    V9.applyLocalUpdates guestUser [] [] [] v9Start = v9Start ∧
    V9.handleUpdateTask guestUser "g1" 5 "t1" { ustatus := some .Completed } v9Start = v9Start ∧
    V9.handleDeleteTask guestUser "g2" 5 "t1" true v9Start = v9Start ∧
    V9.handleFormSubmit guestUser none "n1" "g3" 5
      { title := "x", category := "PREP", deadline := none, notes := "", assignee := none }
      v9Start = v9Start ∧
    V9.pushToCloud guestUser 5 true v9Start = (v9Start, none) :=
  C10_non_admin_read_only guestUser rfl [] [] [] "g1" "n1" 5 "t1"
    { ustatus := some .Completed } true none
    { title := "x", category := "PREP", deadline := none, notes := "", assignee := none }
    true v9Start

end Planet
